import Mathlib

/-!
Verification development for the `openclaw-statusbar` plugin.

The definitions below are a shallow embedding of the TypeScript sources:
`src/src/config.ts`, `src/src/render.ts`, `src/src/types.ts`, the Telegram
transport module (`TelegramApiError`, `GlobalRateLimiter`, `callTelegram`)
and the scheduler / lifecycle handlers of `src/index.ts`.

JavaScript numbers are modelled as rationals (`ℚ`) where fractional values
can occur and as integers (`ℤ`) where the code only ever stores integral
millisecond timestamps, counters or identifiers.  `null`/`undefined` fields
become `Option`.  Wall-clock reads (`Date.now()`) are passed explicitly as a
`now` parameter.  Network calls are modelled by outcome oracles.
-/

/-- `Math.trunc` on a rational: rounds toward zero. -/
def jsTrunc (q : ℚ) : ℤ := if 0 ≤ q then ⌊q⌋ else -⌊-q⌋

/-- `Math.round` on a rational: `⌊q + 1/2⌋`, which matches JS rounding
(half goes toward positive infinity). -/
def jsRound (q : ℚ) : ℤ := ⌊q + 1 / 2⌋

/-- `Math.ceil` on a rational. -/
def jsCeil (q : ℚ) : ℤ := ⌈q⌉

/-- The clamp used by `asInt` in `config.ts`:
first `normalized < min → min`, then `normalized > max → max`. -/
def clampI (v lo hi : ℤ) : ℤ := if v < lo then lo else if hi < v then hi else v

/-- A JavaScript value as far as `normalizePluginConfig` inspects one:
a finite number, a non-finite number (`NaN`/`±Infinity`), a string, a
boolean, `null`, or anything else (`undefined`, objects, …). -/
inductive JsVal
  | num (q : ℚ)
  | nonFiniteNum
  | str (s : String)
  | jsBool (b : Bool)
  | nullV
  | undef
deriving DecidableEq, Repr

/-- `type StatusMode = "minimal" | "normal" | "detailed"` -/
inductive StatusMode
  | minimal
  | normal
  | detailed
deriving DecidableEq, Repr

/-- `type StatusLayout = "tiny1"` -/
inductive StatusLayout
  | tiny1
deriving DecidableEq, Repr

/-- `type ProgressMode = "strict" | "predictive"` -/
inductive ProgressMode
  | strict
  | predictive
deriving DecidableEq, Repr

/-- `type RunPhase = "idle" | "queued" | "running" | "tool" | "done" | "error"` -/
inductive RunPhase
  | idle
  | queued
  | running
  | tool
  | done
  | error
deriving DecidableEq, Repr

/-- `asBool` from `config.ts`. -/
def asBool (v : JsVal) (fallback : Bool) : Bool :=
  match v with
  | .jsBool b => b
  | _ => fallback

/-- `asInt` from `config.ts`: non-numbers and non-finite numbers fall back;
finite numbers are truncated and clamped to `[min, max]`. -/
def asInt (v : JsVal) (fallback lo hi : ℤ) : ℤ :=
  match v with
  | .num q => clampI (jsTrunc q) lo hi
  | _ => fallback

/-- `asMode` from `config.ts`. -/
def asMode (v : JsVal) (fallback : StatusMode) : StatusMode :=
  match v with
  | .str "minimal" => .minimal
  | .str "normal" => .normal
  | .str "detailed" => .detailed
  | _ => fallback

/-- `asLayout` from `config.ts`. -/
def asLayout (v : JsVal) (fallback : StatusLayout) : StatusLayout :=
  match v with
  | .str "tiny1" => .tiny1
  | _ => fallback

/-- `asProgressMode` from `config.ts`. -/
def asProgressMode (v : JsVal) (fallback : ProgressMode) : ProgressMode :=
  match v with
  | .str "strict" => .strict
  | .str "predictive" => .predictive
  | _ => fallback

/-- The raw plugin-config object: each property is an arbitrary JS value;
a missing property is `undefined`. -/
structure RawConfig where
  enabledByDefault : JsVal := .undef
  defaultMode : JsVal := .undef
  defaultLayout : JsVal := .undef
  defaultProgressMode : JsVal := .undef
  throttleMs : JsVal := .undef
  minThrottleMs : JsVal := .undef
  liveTickMs : JsVal := .undef
  maxRetriesEdit : JsVal := .undef
  maxRetriesSend : JsVal := .undef
  autoHideSeconds : JsVal := .undef
  showInlineControls : JsVal := .undef
  newMessagePerRun : JsVal := .undef
deriving DecidableEq, Repr

/-- An object all of whose relevant properties are `undefined`
(the `{}` the source substitutes for a non-object input). -/
def rawUndef : RawConfig := {}

/-- `StatusbarPluginConfig` from `types.ts`. -/
structure StatusbarPluginConfig where
  enabledByDefault : Bool
  defaultMode : StatusMode
  defaultLayout : StatusLayout
  defaultProgressMode : ProgressMode
  throttleMs : ℤ
  minThrottleMs : ℤ
  liveTickMs : ℤ
  maxRetriesEdit : ℤ
  maxRetriesSend : ℤ
  autoHideSeconds : ℤ
  showInlineControls : Bool
  newMessagePerRun : Bool
deriving DecidableEq, Repr

/-- Raw input to `normalizePluginConfig`: `some r` when
`typeof raw === "object" && raw != null`, otherwise `none`
(then the source works on `{}`, i.e. all properties `undefined`). -/
def rawSrc (raw : Option RawConfig) : RawConfig := raw.getD rawUndef

/-- `normalizePluginConfig` from `config.ts` (current version, with the
`fix #18` defaults and the `fix #20` retry split). -/
def normalizePluginConfig (raw : Option RawConfig) : StatusbarPluginConfig :=
  let source := rawSrc raw
  { enabledByDefault := asBool source.enabledByDefault false
    defaultMode := asMode source.defaultMode .normal
    defaultLayout := asLayout source.defaultLayout .tiny1
    defaultProgressMode := asProgressMode source.defaultProgressMode .predictive
    throttleMs := asInt source.throttleMs 4000 250 10000
    minThrottleMs := asInt source.minThrottleMs 2500 250 10000
    liveTickMs := asInt source.liveTickMs 2500 250 10000
    maxRetriesEdit := asInt source.maxRetriesEdit 0 0 4
    maxRetriesSend := asInt source.maxRetriesSend 4 0 10
    autoHideSeconds := asInt source.autoHideSeconds 0 0 600
    showInlineControls := asBool source.showInlineControls false
    newMessagePerRun := asBool source.newMessagePerRun true }

/-- `TelegramTarget` from `types.ts` (`channelId` is always `"telegram"`
and is omitted). -/
structure TelegramTarget where
  accountId : String
  conversationId : String
  chatId : String
  threadId : Option ℤ
deriving DecidableEq, Repr

/-- `StatusMessageRef` from `types.ts`. -/
structure StatusMessageRef where
  chatId : String
  messageId : ℤ
  updatedAt : ℤ
deriving DecidableEq, Repr

/-- `ConversationPrefs` from `types.ts`.  The per-thread message-ref map is
not carried here: the flush model below receives the ref for the relevant
thread explicitly and reports the writes it performs. -/
structure ConversationPrefs where
  enabled : Bool
  mode : StatusMode
  layout : StatusLayout
  progressMode : ProgressMode
  pinMode : Bool
  buttonsEnabled : Bool
  historyRuns : ℤ
  avgDurationMs : ℚ
  avgSteps : ℚ
deriving DecidableEq, Repr

/-- `SessionRuntime` from `types.ts`.  Timer handles are modelled as
booleans (a pending timer exists or not). -/
structure SessionRuntime where
  sessionKey : String
  target : TelegramTarget
  phase : RunPhase
  runNumber : ℤ
  queuedCount : ℤ
  currentRunSteps : ℤ
  startedAtMs : ℤ
  endedAtMs : Option ℤ
  toolName : Option String
  provider : Option String
  model : Option String
  usageInput : Option ℤ
  usageOutput : Option ℤ
  lastUsageRenderAtMs : ℤ
  error : Option String
  lastRenderedText : Option String
  lastRenderedControlsKey : Option String
  lastRenderedAtMs : ℤ
  nextAllowedAtMs : ℤ
  desiredRevision : ℕ
  renderedRevision : ℕ
  renderTimer : Bool
  isFlushing : Bool
  hideTimer : Bool
deriving DecidableEq, Repr

/-- `createSessionState` from `index.ts`. -/
def createSessionState (sessionKey : String) (target : TelegramTarget) (now : ℤ) :
    SessionRuntime :=
  { sessionKey := sessionKey
    target := target
    phase := .idle
    runNumber := 0
    queuedCount := 0
    currentRunSteps := 0
    startedAtMs := now
    endedAtMs := none
    toolName := none
    provider := none
    model := none
    usageInput := none
    usageOutput := none
    lastUsageRenderAtMs := 0
    error := none
    lastRenderedText := none
    lastRenderedControlsKey := none
    lastRenderedAtMs := 0
    nextAllowedAtMs := 0
    desiredRevision := 0
    renderedRevision := 0
    renderTimer := false
    isFlushing := false
    hideTimer := false }

/-! ## Render module (`src/src/render.ts`, current version) -/
/-- `PROGRESS_STEP_WEIGHT = 0.6` -/
def progressStepWeight : ℚ := 6 / 10

/-- `PROGRESS_TIME_WEIGHT = 0.4` -/
def progressTimeWeight : ℚ := 4 / 10

/-- `PROGRESS_MIN_RATIO = 0.01` -/
def progressMinFrac : ℚ := 1 / 100

/-- `PROGRESS_MAX_RATIO = 0.99` -/
def progressMaxFrac : ℚ := 99 / 100

/-- `ETA_MIN_RATIO_THRESHOLD = 0.05` -/
def etaMinFracThreshold : ℚ := 5 / 100

/-- `FALLBACK_STEPS_TOTAL = 4` -/
def fallbackStepsTotal : ℤ := 4

/-- `String(n).padStart(2, "0")` for the non-negative integers produced by
`formatClockMs`. -/
def pad2 (n : ℤ) : String :=
  let s := toString n
  if s.length < 2 then "0" ++ s else s

/-- `formatClockMs` from `render.ts`. -/
def formatClockMs (valueMs : ℤ) : String :=
  let totalSeconds : ℤ := max 0 (Int.fdiv valueMs 1000)
  let seconds := totalSeconds % 60
  let minutes := (Int.fdiv totalSeconds 60) % 60
  let hours := Int.fdiv totalSeconds 3600
  let ss := pad2 seconds
  let mm := pad2 minutes
  if 0 < hours then toString hours ++ ":" ++ mm ++ ":" ++ ss else mm ++ ":" ++ ss

/-- `getElapsedMs` from `render.ts` (`Date.now()` passed as `now`). -/
def getElapsedMs (now : ℤ) (s : SessionRuntime) : ℤ :=
  max 0 (s.endedAtMs.getD now - s.startedAtMs)

/-- `resolveStatusLabel` from `render.ts`. -/
def resolveStatusLabel (s : SessionRuntime) : String :=
  match s.phase with
  | .queued => "QUEUED"
  | .running => "RUNNING"
  | .tool => "TOOL"
  | .done => "DONE"
  | .error => "ERROR"
  | .idle => "IDLE"

/-- `resolveStatusIcon` from `render.ts`. -/
def resolveStatusIcon (s : SessionRuntime) : String :=
  match s.phase with
  | .queued => "⏳"
  | .running => "⚡"
  | .tool => "🛠️"
  | .done => "✅"
  | .error => "❌"
  | .idle => "💤"

/-- `resolveFocusLabel` from `render.ts`. -/
def resolveFocusLabel (s : SessionRuntime) : String :=
  if s.phase = .tool ∧ s.toolName.isSome then s.toolName.getD ""
  else if s.phase = .queued then "queue"
  else if s.phase = .running then "thinking"
  else if s.phase = .done then "done"
  else if s.phase = .error then "error"
  else "idle"

/-- `isFinal` test used by `resolveProgress`. -/
def isFinalPhase (p : RunPhase) : Bool :=
  match p with
  | .done => true
  | .error => true
  | _ => false

/-- Result record of `resolveProgress`. -/
structure ProgressInfo where
  stepsDone : ℤ
  stepsTotal : Option ℤ
  percent : Option ℤ
  etaMs : Option ℤ
deriving DecidableEq, Repr

/-- `resolveProgress` from `render.ts` (current version): the predictive
progress / ETA estimator. -/
def resolveProgress (now : ℤ) (s : SessionRuntime) (prefs : ConversationPrefs) :
    ProgressInfo :=
  let isFinal := isFinalPhase s.phase
  let elapsedMs := getElapsedMs now s
  let rawStepsDone := max 0 s.currentRunSteps
  let stepsDone := if isFinal then max 1 rawStepsDone else rawStepsDone
  if prefs.progressMode = .strict then
    { stepsDone := stepsDone
      stepsTotal := if isFinal then some (max 1 stepsDone) else none
      percent := if isFinal then some 100 else none
      etaMs := if isFinal then some 0 else none }
  else
    let historyTotal : ℤ :=
      if 0 < prefs.historyRuns then jsRound (max 1 prefs.avgSteps) else 0
    let stepsTotal : ℤ :=
      max (if historyTotal = 0 then fallbackStepsTotal else historyTotal)
        (stepsDone + (if isFinal then 0 else 1))
    if isFinal then
      { stepsDone := stepsDone
        stepsTotal := some (max stepsTotal stepsDone)
        percent := some 100
        etaMs := some 0 }
    else
      let stepFrac : ℚ := if 0 < stepsTotal then (stepsDone : ℚ) / (stepsTotal : ℚ) else 0
      let percentFrac0 : ℚ := max progressMinFrac stepFrac
      let percentFrac : ℚ :=
        if 0 < prefs.avgDurationMs then
          let timeFrac := min progressMaxFrac ((elapsedMs : ℚ) / prefs.avgDurationMs)
          max stepFrac
            (min progressMaxFrac
              (stepFrac * progressStepWeight + timeFrac * progressTimeWeight))
        else percentFrac0
      let etaMs : Option ℤ :=
        if 0 < prefs.avgDurationMs then
          some (max 0 (jsRound (prefs.avgDurationMs - (elapsedMs : ℚ))))
        else if etaMinFracThreshold < percentFrac0 then
          some (max 0 (jsRound ((elapsedMs : ℚ) * (1 - percentFrac0) / percentFrac0)))
        else none
      { stepsDone := stepsDone
        stepsTotal := some stepsTotal
        percent := some (max 1 (min 99 (jsRound (percentFrac * 100))))
        etaMs := etaMs }

/-- `renderTiny1` from `render.ts`. -/
def renderTiny1 (now : ℤ) (s : SessionRuntime) (prefs : ConversationPrefs) : String :=
  let statusLabel := resolveStatusLabel s
  let statusIcon := resolveStatusIcon s
  let taskLabel := if 0 < s.runNumber then "#" ++ toString s.runNumber else "#-"
  let pinMarker := if prefs.pinMode then "📌" else ""
  let focusLabel := resolveFocusLabel s
  let elapsed := formatClockMs (getElapsedMs now s)
  let progress := resolveProgress now s prefs
  let stepsText :=
    match progress.stepsTotal with
    | none => toString progress.stepsDone ++ "/?"
    | some t => toString progress.stepsDone ++ "/" ++ toString t
  let percentText :=
    match progress.percent with
    | none => "--"
    | some p => toString p ++ "%"
  let etaText :=
    match progress.etaMs with
    | none => "--"
    | some e => formatClockMs e
  statusIcon ++ " " ++ statusLabel ++ " " ++ taskLabel ++ pinMarker ++ " | " ++
    focusLabel ++ " | " ++ elapsed ++ " | " ++ stepsText ++ " | " ++ percentText ++
    " | ETA " ++ etaText

/-- `renderStatusText` from `render.ts`: the only layout is `tiny1`. -/
def renderStatusText (now : ℤ) (s : SessionRuntime) (prefs : ConversationPrefs) : String :=
  renderTiny1 now s prefs

/-- One inline button (`{ text, callback_data }`). -/
structure InlineButton where
  text : String
  callbackData : String
deriving DecidableEq, Repr

/-- `MODE_CYCLE` lookup with its `?? "normal"` fallback. -/
def modeCycle (m : StatusMode) : String :=
  match m with
  | .minimal => "normal"
  | .normal => "detailed"
  | .detailed => "minimal"

/-- `renderActiveButtons` from `render.ts`. -/
def renderActiveButtons (prefs : ConversationPrefs) : List (List InlineButton) :=
  [[{ text := "📊 " ++ modeCycle prefs.mode, callbackData := "/sbmode " ++ modeCycle prefs.mode },
    { text := if prefs.pinMode then "📌 Unpin" else "📌 Pin",
      callbackData := if prefs.pinMode then "/sbunpin" else "/sbpin" },
    { text := "⏹ Off", callbackData := "/sboff" }]]

/-- `renderDoneButtons` from `render.ts`. -/
def renderDoneButtons (prefs : ConversationPrefs) : List (List InlineButton) :=
  [[{ text := "📊 " ++ modeCycle prefs.mode, callbackData := "/sbmode " ++ modeCycle prefs.mode },
    { text := "🔄 Reset", callbackData := "/sbreset" },
    { text := "⏹ Off", callbackData := "/sboff" }]]

/-- `renderStatusButtons` from `render.ts`. -/
def renderStatusButtons (s : SessionRuntime) (prefs : ConversationPrefs) :
    Option (List (List InlineButton)) :=
  if prefs.buttonsEnabled = false then none
  else if s.phase = .queued ∨ s.phase = .running ∨ s.phase = .tool then
    some (renderActiveButtons prefs)
  else if s.phase = .done ∨ s.phase = .error then some (renderDoneButtons prefs)
  else none

/-- `JSON.stringify` of one button object (keys in insertion order; the
button texts used by this plugin need no JSON escaping). -/
def stringifyButton (b : InlineButton) : String :=
  "\x7b\"text\":\"" ++ b.text ++ "\",\"callback_data\":\"" ++ b.callbackData ++ "\"\x7d"

/-- `JSON.stringify` of one button row. -/
def stringifyRow (r : List InlineButton) : String :=
  "[" ++ String.intercalate "," (r.map stringifyButton) ++ "]"

/-- `JSON.stringify(controls ?? null)`: the `controlsKey` computed by
`flushSession`. -/
def controlsKeyOf (controls : Option (List (List InlineButton))) : String :=
  match controls with
  | none => "null"
  | some rows => "[" ++ String.intercalate "," (rows.map stringifyRow) ++ "]"

/-! ## Transport (`TelegramApiError`, `GlobalRateLimiter`, `callTelegram`) -/
/-- The `GlobalRateLimiter` key: `` `${accountId}:${chatId}` ``. -/
def rlKey (accountId chatId : String) : String := accountId ++ ":" ++ chatId

/-- The limiter's `pausedUntil` map, as an association list from key to
"paused until" timestamp (ms). -/
abbrev RateLimiterState : Type := List (String × ℤ)

/-- Remove every binding of `k` (a JS `Map` holds at most one). -/
def rlErase (st : RateLimiterState) (k : String) : RateLimiterState :=
  st.filter (fun e => e.1 ≠ k)

/-- `Map.set`. -/
def rlSet (st : RateLimiterState) (k : String) (v : ℤ) : RateLimiterState :=
  (k, v) :: rlErase st k

/-- `this.pausedUntil.get(key) ?? 0`. -/
def rlLookup (st : RateLimiterState) (k : String) : ℤ :=
  (st.lookup k).getD 0

/-- `GlobalRateLimiter.onRateLimit`: pause until
`now + max(retryAfterSec, 1) * 1000`, keeping any later existing pause. -/
def rlOnRateLimit (st : RateLimiterState) (now : ℤ) (accountId chatId : String)
    (retryAfterSec : ℤ) : RateLimiterState :=
  let key := rlKey accountId chatId
  let untilMs := now + max retryAfterSec 1 * 1000
  let existing := rlLookup st key
  if existing < untilMs then rlSet st key untilMs else st

/-- `GlobalRateLimiter.canProceed`: returns the boolean answer and the state
after the lazy clearing of an expired entry. -/
def rlCanProceed (st : RateLimiterState) (now : ℤ) (accountId chatId : String) :
    Bool × RateLimiterState :=
  let key := rlKey accountId chatId
  let untilMs := rlLookup st key
  if untilMs ≤ now then (true, if 0 < untilMs then rlErase st key else st)
  else (false, st)

/-- `GlobalRateLimiter.remainingMs`. -/
def rlRemainingMs (st : RateLimiterState) (now : ℤ) (accountId chatId : String) : ℤ :=
  max 0 (rlLookup st (rlKey accountId chatId) - now)

/-- Outcome of one `fetch` attempt inside `callTelegram`: either the API
answered `ok`, or an error was raised, carrying the `TelegramApiError`
fields that the retry loop inspects (`code`, whether the description matches
the "message is not modified" pattern, and `retry_after`). -/
inductive TgOutcome
  | ok
  | err (code : Option ℤ) (notModifiedDesc : Bool) (retryAfter : Option ℤ)
deriving DecidableEq, Repr

/-- `TelegramApiError.isMessageNotModified` (`code === 400` plus the
description regex). -/
def tgIsNotModified (code : Option ℤ) (notModifiedDesc : Bool) : Bool :=
  code = some 400 && notModifiedDesc

/-- `TelegramApiError.isRateLimit` (`code === 429`). -/
def tgIsRateLimit (code : Option ℤ) : Bool :=
  code = some 429

/-- The `callTelegram` retry test for 5xx / network errors:
`code == null || code >= 500`. -/
def tgIsServerOrNetwork (code : Option ℤ) : Bool :=
  match code with
  | none => true
  | some c => 500 ≤ c

/-- A transient error in the sense of the retry policy: rate limit, 5xx or
network error — and not the "message is not modified" early exit. -/
def tgTransient (o : TgOutcome) : Bool :=
  match o with
  | .ok => false
  | .err code nm _ =>
      !tgIsNotModified code nm && (tgIsRateLimit code || tgIsServerOrNetwork code)

/-- `extractRetryAfterSeconds` from the transport module. -/
def extractRetryAfterSeconds (retryAfter : Option ℤ) (fallbackMs : ℤ) (attempt : ℕ) : ℤ :=
  match retryAfter with
  | some r => if 0 ≤ r then r else jsCeil ((fallbackMs * max 1 (2 ^ attempt) : ℤ) / (1000 : ℚ))
  | none => jsCeil ((fallbackMs * max 1 (2 ^ attempt) : ℤ) / (1000 : ℚ))

/-- Result of running the `callTelegram` retry loop: total number of
attempts performed, the sleeps (ms) between them, and whether the call
finally succeeded (`ok = false` means the error was re-thrown). -/
structure CallTrace where
  attempts : ℕ
  sleeps : List ℤ
  ok : Bool
deriving DecidableEq, Repr

/-- One unfolding of the `while (true)` loop of `callTelegram`.
`outcomes i` is the outcome of attempt `i`, `jitter i` the value of
`resolveJitterMs()` before attempt `i + 1`; the fuel `maxRetries + 1 - attempt`
bounds the loop. -/
def callGo (outcomes : ℕ → TgOutcome) (jitter : ℕ → ℤ) (baseDelayMs : ℤ)
    (maxRetries : ℕ) : ℕ → ℕ → CallTrace
  | _, 0 => { attempts := 0, sleeps := [], ok := false }
  | attempt, fuel + 1 =>
    match outcomes attempt with
    | .ok => { attempts := attempt + 1, sleeps := [], ok := true }
    | .err code nm retryAfter =>
      if tgIsNotModified code nm then { attempts := attempt + 1, sleeps := [], ok := false }
      else if maxRetries ≤ attempt then { attempts := attempt + 1, sleeps := [], ok := false }
      else if tgIsRateLimit code then
        let retryAfterSec := extractRetryAfterSeconds retryAfter baseDelayMs attempt
        let sleepMs := max 250 (retryAfterSec * 1000 + jitter attempt)
        let rest := callGo outcomes jitter baseDelayMs maxRetries (attempt + 1) fuel
        { rest with sleeps := sleepMs :: rest.sleeps }
      else if tgIsServerOrNetwork code then
        let sleepMs := max 250 (baseDelayMs * max 1 (2 ^ attempt) + jitter attempt)
        let rest := callGo outcomes jitter baseDelayMs maxRetries (attempt + 1) fuel
        { rest with sleeps := sleepMs :: rest.sleeps }
      else { attempts := attempt + 1, sleeps := [], ok := false }

/-- `callTelegram` with a given per-call `maxRetries` (the `fix #19`/`#20`
parameter): the loop starting at attempt `0`. -/
def callTelegramRun (outcomes : ℕ → TgOutcome) (jitter : ℕ → ℤ) (baseDelayMs : ℤ)
    (maxRetries : ℕ) : CallTrace :=
  callGo outcomes jitter baseDelayMs maxRetries 0 (maxRetries + 1)

/-- `baseDelayMs = Math.max(this.config.minThrottleMs, 500)`. -/
def baseDelayOf (cfg : StatusbarPluginConfig) : ℤ :=
  max cfg.minThrottleMs 500

/-! ## Scheduler and flush (`src/index.ts`) -/
/-- `ACTIVE_PHASES` from `index.ts`. -/
def isActivePhase (p : RunPhase) : Bool :=
  match p with
  | .queued => true
  | .running => true
  | .tool => true
  | _ => false

/-- `resolveThrottleMs` from `index.ts` (`fix #21`): the phase-specific
throttle. -/
def resolveThrottleMs (cfg : StatusbarPluginConfig) (phase : RunPhase) : ℤ :=
  match phase with
  | .tool => max cfg.minThrottleMs 2000
  | .running => cfg.throttleMs
  | .queued => cfg.throttleMs * 2
  | _ => cfg.throttleMs

/-- The throttle actually applied after a flush:
`Math.max(resolveThrottleMs(phase), minThrottleMs)`. -/
def effectiveThrottleMs (cfg : StatusbarPluginConfig) (phase : RunPhase) : ℤ :=
  max (resolveThrottleMs cfg phase) cfg.minThrottleMs

/-- `scheduleFlush` as it affects the session record: arm the render timer
unless one is pending or a flush is in flight. -/
def scheduleFlushS (s : SessionRuntime) : SessionRuntime :=
  if s.renderTimer || s.isFlushing then s else { s with renderTimer := true }

/-- `markDirty` from `index.ts`: bump `desiredRevision`; when urgent, zero
`nextAllowedAtMs` and cancel a pending timer (`fix #22`); then schedule. -/
def markDirtyS (urgent : Bool) (s : SessionRuntime) : SessionRuntime :=
  let s1 := { s with desiredRevision := s.desiredRevision + 1 }
  let s2 := if urgent then { s1 with nextAllowedAtMs := 0, renderTimer := false } else s1
  scheduleFlushS s2

/-- The history fold performed by `onAgentEnd` on successful completion
(the updater passed to `store.updateConversation`). -/
def updateHistory (c : ConversationPrefs) (durationMs completedSteps : ℤ) :
    ConversationPrefs :=
  let n : ℤ := max 0 c.historyRuns
  let nextRuns := n + 1
  let nextAvgDurationMs : ℚ :=
    if n = 0 then (durationMs : ℚ)
    else (jsRound ((c.avgDurationMs * (n : ℚ) + (durationMs : ℚ)) / (nextRuns : ℚ)) : ℤ)
  let nextAvgSteps : ℚ :=
    if n = 0 then (completedSteps : ℚ)
    else (c.avgSteps * (n : ℚ) + (completedSteps : ℚ)) / (nextRuns : ℚ)
  { c with historyRuns := nextRuns, avgDurationMs := nextAvgDurationMs,
           avgSteps := nextAvgSteps }

/-- A delivery call issued by the plugin. -/
inductive ApiCall
  | edit
  | send
  | pin
  | unpin
deriving DecidableEq, Repr

/-- Outcome of the `transport.editStatusMessage` call attempted by
`flushSession` when a message ref exists. -/
inductive EditOutcome
  | ok (ref : StatusMessageRef)
  | notFound
  | rateLimited (retryAfter : Option ℤ)
  | failOther
deriving DecidableEq, Repr

/-- Outcome of the `transport.sendStatusMessage` call. -/
inductive SendOutcome
  | ok (ref : StatusMessageRef)
  | failOther
deriving DecidableEq, Repr

/-- Environment of one `flushSession` execution: configuration,
preferences, the wall clock, the circuit-breaker state, the stored message
ref for this target's thread, and the network-outcome oracles. -/
structure FlushEnv where
  cfg : StatusbarPluginConfig
  prefs : ConversationPrefs
  now : ℤ
  limiter : RateLimiterState
  currentRef : Option StatusMessageRef
  editOutcome : EditOutcome
  sendOutcome : SendOutcome
deriving Repr

/-- Result of one `flushSession` execution: the session afterwards, the
sequence of `store.setStatusMessage` writes, the delivery calls attempted,
and the circuit-breaker state afterwards. -/
structure FlushResult where
  session : SessionRuntime
  storeWrites : List (Option StatusMessageRef)
  calls : List ApiCall
  limiter : RateLimiterState
deriving Repr

/-- Tail of `flushSession` after a message ref `nextRef` has been obtained:
`didMessageRefChange`, the conditional `setStatusMessage`/`persist`/pin, the
render-cache update, the adaptive next-allowed time and the revision
advance. -/
def flushFinish (env : FlushEnv) (s : SessionRuntime) (text controlsKey : String)
    (currentRef : Option StatusMessageRef) (nextRef : StatusMessageRef)
    (writes : List (Option StatusMessageRef)) (calls : List ApiCall) : FlushResult :=
  let didChange :=
    match currentRef with
    | none => true
    | some r => r.messageId ≠ nextRef.messageId || r.chatId ≠ nextRef.chatId
  let writes2 := writes ++ (if didChange then [some nextRef] else [])
  let calls2 := calls ++ (if didChange && env.prefs.pinMode then [ApiCall.pin] else [])
  { session :=
      { s with lastRenderedText := some text
               lastRenderedControlsKey := some controlsKey
               lastRenderedAtMs := env.now
               nextAllowedAtMs := env.now + effectiveThrottleMs env.cfg s.phase
               renderedRevision := s.desiredRevision }
    storeWrites := writes2
    calls := calls2
    limiter := env.limiter }

/-- The `if (!nextRef) nextRef = await sendStatusMessage(...)` step of
`flushSession`; a thrown send error reaches the outer catch, which only
logs. -/
def flushSendPath (env : FlushEnv) (s : SessionRuntime) (text controlsKey : String)
    (currentRef : Option StatusMessageRef) (writes : List (Option StatusMessageRef))
    (calls : List ApiCall) : FlushResult :=
  match env.sendOutcome with
  | .failOther =>
      { session := s, storeWrites := writes, calls := calls ++ [ApiCall.send],
        limiter := env.limiter }
  | .ok nextRef =>
      flushFinish env s text controlsKey currentRef nextRef (writes ++ [])
        (calls ++ [ApiCall.send])

/-- The edit-or-send part of `flushSession` (after the no-op check):
edit when a ref exists, with the `isEditNotFound` / `isRateLimit` /
rethrow handling of the source; send when no usable ref remains. -/
def flushAfterRender (env : FlushEnv) (s : SessionRuntime) (text controlsKey : String) :
    FlushResult :=
  match env.currentRef with
  | none => flushSendPath env s text controlsKey none [] []
  | some r =>
    match env.editOutcome with
    | .ok nextRef => flushFinish env s text controlsKey (some r) nextRef [] [ApiCall.edit]
    | .notFound => flushSendPath env s text controlsKey (some r) [none] [ApiCall.edit]
    | .rateLimited retryAfter =>
        let limiter2 :=
          rlOnRateLimit env.limiter env.now s.target.accountId s.target.chatId
            (retryAfter.getD 60)
        let remainingMs := rlRemainingMs limiter2 env.now s.target.accountId s.target.chatId
        { session :=
            { s with nextAllowedAtMs := env.now + max remainingMs env.cfg.throttleMs }
          storeWrites := []
          calls := [ApiCall.edit]
          limiter := limiter2 }
    | .failOther =>
        { session := s, storeWrites := [], calls := [ApiCall.edit], limiter := env.limiter }

/-- `flushSession` from `index.ts` as a pure transition: the guards
(in source order: in-flight, disabled, revisions converged, circuit
breaker), the no-op render detection, then delivery. -/
def flushSessionModel (env : FlushEnv) (s : SessionRuntime) : FlushResult :=
  if s.isFlushing then
    { session := s, storeWrites := [], calls := [], limiter := env.limiter }
  else if env.prefs.enabled = false then
    { session := s, storeWrites := [], calls := [], limiter := env.limiter }
  else if s.desiredRevision ≤ s.renderedRevision then
    { session := s, storeWrites := [], calls := [], limiter := env.limiter }
  else if (rlCanProceed env.limiter env.now s.target.accountId s.target.chatId).1 = false then
    { session := s, storeWrites := [], calls := [], limiter := env.limiter }
  else
    let text := renderStatusText env.now s env.prefs
    let controlsKey := controlsKeyOf (renderStatusButtons s env.prefs)
    if s.lastRenderedText = some text ∧ s.lastRenderedControlsKey = some controlsKey ∧
        s.renderedRevision ≠ 0 then
      { session := { s with renderedRevision := s.desiredRevision }
        storeWrites := [], calls := [], limiter := env.limiter }
    else
      flushAfterRender env s text controlsKey

/-! ## Lifecycle handlers and the session/world transition system -/
/-- The state a single delivery target sees: its session record, its
conversation preferences and the stored message ref for its thread. -/
structure SbWorld where
  session : SessionRuntime
  prefs : ConversationPrefs
  storedRef : Option StatusMessageRef
deriving Repr

/-- Apply a sequence of `setStatusMessage` writes: the last write wins. -/
def applyWrites (r0 : Option StatusMessageRef) (ws : List (Option StatusMessageRef)) :
    Option StatusMessageRef :=
  ws.foldl (fun _ w => w) r0

/-- One externally triggered operation on a target's world.  Network and
randomness are carried as oracle data on the constructor. -/
inductive SbOp
  | markDirtyOp (urgent : Bool)
  | msgReceived
  | beforeAgentStart
  | beforeToolCall (tool : String)
  | afterToolCall
  | llmOut (provider model : String) (usageIn usageOut : Option ℤ)
  | agentEnd (success : Bool) (errMsg : Option String) (durationMs : Option ℤ)
  | autoHideFire
  | buttonsCmd
  | flushOp (limiter : RateLimiterState) (editOutcome : EditOutcome)
      (sendOutcome : SendOutcome)

/-- `onMessageReceived` (non-command message, target resolved) from
`index.ts`: the new-run reset (`newMessagePerRun` and not pinned), the
queued transition and the dirty mark. -/
def stepMsgReceived (cfg : StatusbarPluginConfig) (now : ℤ) (w : SbWorld) : SbWorld :=
  if w.prefs.enabled = false then w
  else
    let s := w.session
    let hadActiveRun := isActivePhase s.phase
    let reset := cfg.newMessagePerRun && !w.prefs.pinMode
    let storedRef := if !hadActiveRun && reset then none else w.storedRef
    let s :=
      if hadActiveRun then s
      else
        let s :=
          if reset then
            { s with lastRenderedText := none, lastRenderedControlsKey := none,
                     renderedRevision := 0 }
          else s
        { s with phase := .queued, startedAtMs := now, endedAtMs := none,
                 currentRunSteps := 0, toolName := none, error := none,
                 provider := none, model := none, usageInput := none,
                 usageOutput := none, lastUsageRenderAtMs := 0 }
    let s := { s with queuedCount := max 0 s.queuedCount + 1 }
    { w with session := markDirtyS false s, storedRef := storedRef }

/-- `onBeforeAgentStart` from `index.ts`. -/
def stepBeforeAgentStart (now : ℤ) (w : SbWorld) : SbWorld :=
  if w.prefs.enabled = false then w
  else
    let s := w.session
    let s :=
      { s with runNumber := s.runNumber + 1
               queuedCount := max 0 (s.queuedCount - 1)
               currentRunSteps := 0
               phase := .running
               startedAtMs := now
               endedAtMs := none
               toolName := none
               error := none
               provider := none
               model := none
               usageInput := none
               usageOutput := none
               lastUsageRenderAtMs := 0 }
    { w with session := markDirtyS true s }

/-- `onBeforeToolCall` from `index.ts`. -/
def stepBeforeToolCall (tool : String) (w : SbWorld) : SbWorld :=
  if w.prefs.enabled = false then w
  else
    let s := w.session
    let s := { s with currentRunSteps := s.currentRunSteps + 1, phase := .tool,
                      toolName := some tool }
    { w with session := markDirtyS true s }

/-- `onAfterToolCall` from `index.ts`. -/
def stepAfterToolCall (w : SbWorld) : SbWorld :=
  if w.prefs.enabled = false then w
  else
    let s := w.session
    let s := { s with phase := .running, toolName := none }
    { w with session := markDirtyS true s }

/-- `onLlmOutput` from `index.ts`: accumulate usage; urgent mark on the
first model, throttled non-urgent mark in detailed mode afterwards. -/
def stepLlmOut (cfg : StatusbarPluginConfig) (now : ℤ) (provider model : String)
    (usageIn usageOut : Option ℤ) (w : SbWorld) : SbWorld :=
  if w.prefs.enabled = false then w
  else
    let s := w.session
    let isFirstModel := s.model.isNone && model ≠ ""
    let s := { s with provider := some provider, model := some model,
                      usageInput := some (s.usageInput.getD 0 + usageIn.getD 0),
                      usageOutput := some (s.usageOutput.getD 0 + usageOut.getD 0) }
    if isFirstModel then { w with session := markDirtyS true s }
    else if w.prefs.mode = .detailed then
      let usageIntervalMs := max cfg.minThrottleMs cfg.liveTickMs
      if usageIntervalMs ≤ now - s.lastUsageRenderAtMs then
        { w with session := markDirtyS false { s with lastUsageRenderAtMs := now } }
      else { w with session := s }
    else { w with session := s }

/-- `onAgentEnd` from `index.ts`: terminal transition, urgent mark, the
history fold on success, and the auto-hide arming. -/
def stepAgentEnd (cfg : StatusbarPluginConfig) (now : ℤ) (success : Bool)
    (errMsg : Option String) (durationMs : Option ℤ) (w : SbWorld) : SbWorld :=
  if w.prefs.enabled = false then w
  else
    let s := w.session
    let s :=
      match durationMs with
      | some d => if 0 < d then { s with startedAtMs := now - d } else s
      | none => s
    let s := { s with endedAtMs := some now
                      phase := if success then .done else .error
                      toolName := none
                      error := errMsg }
    let s := markDirtyS true s
    let prefs :=
      if success then
        updateHistory w.prefs (max 1000 (now - s.startedAtMs)) (max 1 s.currentRunSteps)
      else w.prefs
    let s :=
      if s.queuedCount ≤ 0 then
        if 0 < cfg.autoHideSeconds then { s with hideTimer := true } else s
      else s
    { session := s, prefs := prefs, storedRef := w.storedRef }

/-- The auto-hide timer callback armed by `scheduleAutoHide`. -/
def stepAutoHideFire (w : SbWorld) : SbWorld :=
  if w.session.hideTimer = false then w
  else
    let s := { w.session with hideTimer := false, phase := .idle, toolName := none,
                              error := none, currentRunSteps := 0 }
    { w with session := markDirtyS false s }

/-- The session part of `handleButtonsCommand`: invalidate the controls
cache and mark dirty urgently. -/
def stepButtonsCmd (w : SbWorld) : SbWorld :=
  let s := { w.session with lastRenderedControlsKey := some "" }
  { w with session := markDirtyS true s }

/-- The render timer firing (`renderTimer = null; flushSession(...)`),
followed by the modelled `flushSession`. -/
def stepFlush (cfg : StatusbarPluginConfig) (now : ℤ) (limiter : RateLimiterState)
    (editOutcome : EditOutcome) (sendOutcome : SendOutcome) (w : SbWorld) : SbWorld :=
  let s := { w.session with renderTimer := false }
  let env : FlushEnv :=
    { cfg := cfg, prefs := w.prefs, now := now, limiter := limiter,
      currentRef := w.storedRef, editOutcome := editOutcome, sendOutcome := sendOutcome }
  let res := flushSessionModel env s
  { session := res.session, prefs := w.prefs,
    storedRef := applyWrites w.storedRef res.storeWrites }

/-- One step of the transition system. -/
def stepW (cfg : StatusbarPluginConfig) (now : ℤ) (op : SbOp) (w : SbWorld) : SbWorld :=
  match op with
  | .markDirtyOp urgent => { w with session := markDirtyS urgent w.session }
  | .msgReceived => stepMsgReceived cfg now w
  | .beforeAgentStart => stepBeforeAgentStart now w
  | .beforeToolCall tool => stepBeforeToolCall tool w
  | .afterToolCall => stepAfterToolCall w
  | .llmOut provider model uin uout => stepLlmOut cfg now provider model uin uout w
  | .agentEnd success errMsg durationMs => stepAgentEnd cfg now success errMsg durationMs w
  | .autoHideFire => stepAutoHideFire w
  | .buttonsCmd => stepButtonsCmd w
  | .flushOp limiter eo so => stepFlush cfg now limiter eo so w

/-- A timed operation sequence, folded left to right. -/
def stepsW (cfg : StatusbarPluginConfig) (w : SbWorld) (ops : List (ℤ × SbOp)) : SbWorld :=
  ops.foldl (fun acc top => stepW cfg top.1 top.2 acc) w

/-- Does this operation take the `onMessageReceived` new-run reset branch
(the only place `renderedRevision` is written backwards)? -/
def opResets (cfg : StatusbarPluginConfig) (w : SbWorld) (op : SbOp) : Bool :=
  match op with
  | .msgReceived =>
      w.prefs.enabled && !isActivePhase w.session.phase &&
        cfg.newMessagePerRun && !w.prefs.pinMode
  | _ => false

/-- The delivery calls issued by `handleUnpinCommand` from `index.ts`:
when a stored message ref exists it calls `transport.unpinStatusMessage`
directly; the circuit-breaker state is never consulted in this handler. -/
def handleUnpinCommandCalls (_limiter : RateLimiterState) (_now : ℤ)
    (_target : TelegramTarget) (ref : Option StatusMessageRef) : List ApiCall :=
  match ref with
  | some _ => [ApiCall.unpin]
  | none => []

/-! ## Concrete fixtures used by witnesses and counterexamples -/
/-- A resolved Telegram target. -/
def target0 : TelegramTarget :=
  { accountId := "acct", conversationId := "telegram:12345", chatId := "12345",
    threadId := none }

/-- Conversation preferences as created by `defaultConversation` with the
statusbar enabled (predictive progress, default mode, no history). -/
def prefs0 : ConversationPrefs :=
  { enabled := true, mode := .normal, layout := .tiny1, progressMode := .predictive,
    pinMode := false, buttonsEnabled := false, historyRuns := 0, avgDurationMs := 0,
    avgSteps := 0 }

/-- The same preferences in strict progress mode. -/
def prefsStrict : ConversationPrefs := { prefs0 with progressMode := .strict }

/-- A freshly created session for `target0` at time 0. -/
def sessionBase : SessionRuntime :=
  createSessionState "acct|telegram:12345|main" target0 0

/-- A session that finished successfully. -/
def sessionDone : SessionRuntime :=
  { sessionBase with phase := .done, endedAtMs := some 15000, currentRunSteps := 3 }

/-- A session in the running phase. -/
def sessionRunning : SessionRuntime :=
  { sessionBase with phase := .running }

/-- A delivered status message. -/
def refA : StatusMessageRef := { chatId := "12345", messageId := 101, updatedAt := 0 }

/-- The initial world for `target0`. -/
def world0 : SbWorld := { session := sessionBase, prefs := prefs0, storedRef := none }

/-- The default plugin configuration (`normalizePluginConfig` of a
non-object input). -/
def cfg0 : StatusbarPluginConfig := normalizePluginConfig none

/-- A running strict-mode session whose render cache already matches its
render output (used to exercise the no-op branch). -/
def sessionNoopBase : SessionRuntime := { sessionBase with phase := .running }

/-- `sessionNoopBase` with pending revisions and a warm render cache. -/
def sessionNoop : SessionRuntime :=
  { sessionNoopBase with
    desiredRevision := 2, renderedRevision := 1,
    lastRenderedText := some (renderStatusText 5000 sessionNoopBase prefsStrict),
    lastRenderedControlsKey :=
      some (controlsKeyOf (renderStatusButtons sessionNoopBase prefsStrict)) }

/-- Flush environment for the no-op witness: enabled strict preferences, an
open breaker and an existing message ref. -/
def envNoop : FlushEnv :=
  { cfg := cfg0, prefs := prefsStrict, now := 5000, limiter := [],
    currentRef := some refA, editOutcome := .failOther, sendOutcome := .failOther }

/-- Preferences after one recorded run (duration 1000 ms, 2 steps). -/
def prefsHist1 : ConversationPrefs :=
  { prefs0 with historyRuns := 1, avgDurationMs := 1000, avgSteps := 2 }

/-- A raw config whose `throttleMs` is the fractional number `10.7` and all
other properties are missing. -/
def rawW : RawConfig := { rawUndef with throttleMs := JsVal.num (107 / 10) }

/-- A raw config selecting the smallest allowed throttles. -/
def rawLow : RawConfig :=
  { rawUndef with throttleMs := JsVal.num 250, minThrottleMs := JsVal.num 250 }

/-- The normalized low-throttle configuration. -/
def cfgLow : StatusbarPluginConfig := normalizePluginConfig (some rawLow)

/-- A session for `target0` with one pending revision. -/
def sessionDirty1 : SessionRuntime := { sessionBase with desiredRevision := 1 }

/-- A breaker state pausing `target0`'s `(accountId, chatId)` for 30 s
starting at time 0. -/
def limiterPaused : RateLimiterState := rlOnRateLimit [] 0 "acct" "12345" 30

/-- A flush environment at `t = 5000 ms` while `limiterPaused` is active. -/
def envBlocked : FlushEnv :=
  { cfg := cfg0, prefs := prefs0, now := 5000, limiter := limiterPaused,
    currentRef := some refA, editOutcome := .failOther, sendOutcome := .failOther }

/-- The stored message ref before a flush. -/
def refOld : StatusMessageRef := { chatId := "12345", messageId := 7, updatedAt := 100 }

/-- The ref returned by a successful edit of the same message (same
identity, fresh `updatedAt`). -/
def refSameId : StatusMessageRef := { chatId := "12345", messageId := 7, updatedAt := 999 }

/-- The ref of a freshly sent replacement message. -/
def refNew : StatusMessageRef := { chatId := "12345", messageId := 8, updatedAt := 999 }

/-- Flush environment in which the edit succeeds returning `refSameId`. -/
def envEditSame : FlushEnv :=
  { cfg := cfg0, prefs := prefsStrict, now := 5000, limiter := [],
    currentRef := some refOld, editOutcome := .ok refSameId, sendOutcome := .failOther }

/-- Flush environment in which the edit fails with "message to edit not
found" and the recovery send succeeds with `refNew`. -/
def envNotFound : FlushEnv :=
  { cfg := cfg0, prefs := prefsStrict, now := 5000, limiter := [],
    currentRef := some refOld, editOutcome := .notFound, sendOutcome := .ok refNew }

/-! ## Theorems -/

/-! ## Helper lemmas -/
theorem rlLookup_rlSet (st : RateLimiterState) (k : String) (v : ℤ) :
    rlLookup (rlSet st k v) k = v := by
  simp [rlLookup, rlSet, List.lookup]

theorem lookup_rlErase (st : RateLimiterState) (k : String) :
    (rlErase st k).lookup k = none := by
  induction st with
  | nil => simp [rlErase]
  | cons hd tl ih =>
    obtain ⟨a, b⟩ := hd
    by_cases h : a = k
    · simpa [rlErase, List.filter_cons, h] using ih
    · have hk : (k == a) = false := by simp [Ne.symm h]
      simp only [rlErase, List.filter_cons] at ih ⊢
      simpa [h, List.lookup, hk] using ih

/-- C4: recording a rate limit for `(accountId, chatId)` pauses that pair
until the later of any existing pause and `now + max(d, 1)` seconds;
`canProceed` answers `false` strictly before that timestamp and `true` from
it on, at which point the expired entry is removed from the map. -/
theorem rateLimiter_pause_spec (st : RateLimiterState) (now d : ℤ)
    (acct chat : String) (hnow : 0 ≤ now) :
    rlLookup (rlOnRateLimit st now acct chat d) (rlKey acct chat) =
      max (rlLookup st (rlKey acct chat)) (now + max d 1 * 1000) ∧
    (∀ t : ℤ, t < rlLookup (rlOnRateLimit st now acct chat d) (rlKey acct chat) →
      (rlCanProceed (rlOnRateLimit st now acct chat d) t acct chat).1 = false) ∧
    (∀ t : ℤ, rlLookup (rlOnRateLimit st now acct chat d) (rlKey acct chat) ≤ t →
      (rlCanProceed (rlOnRateLimit st now acct chat d) t acct chat).1 = true ∧
      ((rlCanProceed (rlOnRateLimit st now acct chat d) t acct chat).2).lookup
        (rlKey acct chat) = none) := by
  have hone : (1 : ℤ) ≤ max d 1 := le_max_right d 1
  have hpos : 0 < now + max d 1 * 1000 := by nlinarith
  unfold rlOnRateLimit
  by_cases h : rlLookup st (rlKey acct chat) < now + max d 1 * 1000
  · rw [if_pos h]
    have hu : rlLookup (rlSet st (rlKey acct chat) (now + max d 1 * 1000))
        (rlKey acct chat) = now + max d 1 * 1000 := rlLookup_rlSet _ _ _
    refine ⟨by rw [hu, max_eq_right (le_of_lt h)], ?_, ?_⟩
    · intro t ht
      rw [hu] at ht
      simp only [rlCanProceed, hu]
      rw [if_neg (by omega)]
    · intro t ht
      rw [hu] at ht
      simp only [rlCanProceed, hu]
      rw [if_pos ht, if_pos hpos]
      exact ⟨rfl, lookup_rlErase _ _⟩
  · rw [if_neg h]
    push_neg at h
    have hpos0 : 0 < rlLookup st (rlKey acct chat) := lt_of_lt_of_le hpos h
    refine ⟨(max_eq_left h).symm, ?_, ?_⟩
    · intro t ht
      simp only [rlCanProceed]
      rw [if_neg (by omega)]
    · intro t ht
      simp only [rlCanProceed]
      rw [if_pos ht, if_pos hpos0]
      exact ⟨rfl, lookup_rlErase _ _⟩

/-- Witness for C4: from an empty breaker, a rate limit at time 0 with
`retryDelay = 30` s blocks the pair at `t = 29999` ms and allows it again
at `t = 30000` ms, removing the entry. -/
theorem rateLimiter_pause_spec_witness :
    (rlCanProceed (rlOnRateLimit [] 0 "acct" "chat" 30) 29999 "acct" "chat").1 = false ∧
    (rlCanProceed (rlOnRateLimit [] 0 "acct" "chat" 30) 30000 "acct" "chat").1 = true ∧
    ((rlCanProceed (rlOnRateLimit [] 0 "acct" "chat" 30) 30000 "acct" "chat").2).lookup
      (rlKey "acct" "chat") = none := by
  have h := rateLimiter_pause_spec [] 0 30 "acct" "chat" (by norm_num)
  refine ⟨h.2.1 29999 ?_, (h.2.2 30000 ?_).1, (h.2.2 30000 ?_).2⟩ <;> decide

/-- C2: the progress estimator reports `percent = 100`, `etaMs = 0` in every
terminal phase (both modes); in predictive mode it reports an integer
percent in `[1, 99]` for every non-terminal phase; in strict mode it
reports `percent = null`, `etaMs = null` for every non-terminal phase. -/
theorem resolveProgress_bounds (now : ℤ) (s : SessionRuntime) (p : ConversationPrefs) :
    ((s.phase = .done ∨ s.phase = .error) →
      (resolveProgress now s p).percent = some 100 ∧
      (resolveProgress now s p).etaMs = some 0) ∧
    (p.progressMode = .predictive → s.phase ≠ .done → s.phase ≠ .error →
      ∃ k, (resolveProgress now s p).percent = some k ∧ 1 ≤ k ∧ k ≤ 99) ∧
    (p.progressMode = .strict → s.phase ≠ .done → s.phase ≠ .error →
      (resolveProgress now s p).percent = none ∧
      (resolveProgress now s p).etaMs = none) := by
  refine ⟨?_, ?_, ?_⟩
  · intro h
    have hf : isFinalPhase s.phase = true := by
      rcases h with h | h <;> simp [isFinalPhase, h]
    by_cases hm : p.progressMode = .strict <;>
      simp [resolveProgress, hf, hm]
  · intro hm hd he
    have hf : isFinalPhase s.phase = false := by
      cases hp : s.phase <;> simp_all [isFinalPhase]
    have hms : ¬p.progressMode = .strict := by simp [hm]
    simp only [resolveProgress, hf, hms, if_false, Bool.false_eq_true, if_neg]
    refine ⟨max 1 (min 99 _), rfl, le_max_left _ _, ?_⟩
    exact max_le (by norm_num) (min_le_left _ _)
  · intro hm hd he
    have hf : isFinalPhase s.phase = false := by
      cases hp : s.phase <;> simp_all [isFinalPhase]
    simp [resolveProgress, hf, hm]

/-- Witness for C2: on a finished session in strict mode the estimator
reports `100 % / 0 ms`; on a running session strict mode reports nulls and
predictive mode (no history) reports `percent = 1`, inside `[1, 99]`. -/
theorem resolveProgress_bounds_witness :
    (resolveProgress 15000 sessionDone prefsStrict).percent = some 100 ∧
    (resolveProgress 15000 sessionDone prefsStrict).etaMs = some 0 ∧
    (resolveProgress 0 sessionRunning prefsStrict).percent = none ∧
    (resolveProgress 0 sessionRunning prefsStrict).etaMs = none ∧
    (resolveProgress 0 sessionRunning prefs0).percent = some 1 := by
  have h1 := resolveProgress_bounds 15000 sessionDone prefsStrict
  have h2 := resolveProgress_bounds 0 sessionRunning prefsStrict
  refine ⟨(h1.1 (Or.inl (by decide))).1, (h1.1 (Or.inl (by decide))).2,
    (h2.2.2 (by decide) (by decide) (by decide)).1,
    (h2.2.2 (by decide) (by decide) (by decide)).2, ?_⟩
  norm_num [resolveProgress, sessionRunning, sessionBase, prefs0,
    createSessionState, getElapsedMs, isFinalPhase, jsRound, progressMinFrac,
    progressMaxFrac, etaMinFracThreshold, fallbackStepsTotal]
  decide

/-- C7: during a flush, when the rendered text and controls key equal the
last delivered ones and this is not the session's first render
(`renderedRevision ≠ 0`), no delivery call and no store write happen and the
only session change is `renderedRevision := desiredRevision`. -/
theorem flush_noop_detection (env : FlushEnv) (s : SessionRuntime)
    (hIF : s.isFlushing = false)
    (hEn : env.prefs.enabled = true)
    (hDue : s.renderedRevision < s.desiredRevision)
    (hCan : (rlCanProceed env.limiter env.now s.target.accountId s.target.chatId).1 = true)
    (hText : s.lastRenderedText = some (renderStatusText env.now s env.prefs))
    (hKey : s.lastRenderedControlsKey =
      some (controlsKeyOf (renderStatusButtons s env.prefs)))
    (hFirst : s.renderedRevision ≠ 0) :
    flushSessionModel env s =
      { session := { s with renderedRevision := s.desiredRevision },
        storeWrites := [], calls := [], limiter := env.limiter } := by
  simp only [flushSessionModel]
  rw [if_neg (by simp [hIF]), if_neg (by simp [hEn]), if_neg (by omega),
    if_neg (by simp [hCan]), if_pos ⟨hText, hKey, hFirst⟩]

/-- Witness for C7: on `sessionNoop` the flush issues no call, writes
nothing, and advances `renderedRevision` from 1 to 2. -/
theorem flush_noop_detection_witness :
    (flushSessionModel envNoop sessionNoop).calls = [] ∧
    (flushSessionModel envNoop sessionNoop).storeWrites = [] ∧
    (flushSessionModel envNoop sessionNoop).session.renderedRevision = 2 := by
  have h := flush_noop_detection envNoop sessionNoop (by decide) (by decide)
    (by decide) (by decide) (by decide) (by decide) (by decide)
  rw [h]
  exact ⟨rfl, rfl, rfl⟩

/-- Counterexample to C3 as stated: after a run of 1000 ms, folding a run
of 1001 ms stores `avgDurationMs = 1001`, not the exact running average
`(1000·1 + 1001) / 2 = 2001/2`: the code rounds the duration average. -/
theorem history_exact_average_cx :
    (updateHistory (updateHistory prefs0 1000 2) 1001 2).avgDurationMs = 1001 ∧
    ((updateHistory prefs0 1000 2).avgDurationMs *
        ((updateHistory prefs0 1000 2).historyRuns : ℚ) + 1001) /
        (((updateHistory prefs0 1000 2).historyRuns : ℚ) + 1) ≠ (1001 : ℚ) := by
  norm_num [updateHistory, prefs0, jsRound]

/-- C3 (amended): on each successful completion the history update
increments `historyRuns` by one; `avgSteps` follows the exact incremental
running average; `avgDurationMs` follows the same running average rounded
to the nearest integer (`Math.round`); on empty history both averages are
seeded with the run's values; three successful runs with durations
`[10000, 20000, 30000]` ms and steps `[2, 4, 6]` yield
`avgDurationMs = 20000` and `avgSteps = 4`. -/
theorem history_update_spec (c : ConversationPrefs) (d st : ℤ) :
    (0 ≤ c.historyRuns → (updateHistory c d st).historyRuns = c.historyRuns + 1) ∧
    (1 ≤ c.historyRuns →
      (updateHistory c d st).avgDurationMs =
        (jsRound ((c.avgDurationMs * (c.historyRuns : ℚ) + (d : ℚ)) /
          ((c.historyRuns : ℚ) + 1)) : ℤ) ∧
      (updateHistory c d st).avgSteps =
        (c.avgSteps * (c.historyRuns : ℚ) + (st : ℚ)) / ((c.historyRuns : ℚ) + 1)) ∧
    (c.historyRuns = 0 →
      (updateHistory c d st).avgDurationMs = (d : ℚ) ∧
      (updateHistory c d st).avgSteps = (st : ℚ)) ∧
    (updateHistory (updateHistory (updateHistory { c with historyRuns := 0 }
        10000 2) 20000 4) 30000 6).avgDurationMs = 20000 ∧
    (updateHistory (updateHistory (updateHistory { c with historyRuns := 0 }
        10000 2) 20000 4) 30000 6).avgSteps = 4 ∧
    (updateHistory (updateHistory (updateHistory { c with historyRuns := 0 }
        10000 2) 20000 4) 30000 6).historyRuns = 3 := by
  refine ⟨?_, ?_, ?_, ?_, ?_, ?_⟩
  · intro h
    simp [updateHistory, max_eq_right h]
  · intro h
    have h0 : max 0 c.historyRuns = c.historyRuns := max_eq_right (by omega)
    have hne : ¬c.historyRuns = 0 := by omega
    constructor <;> simp [updateHistory, h0, hne]
  · intro h
    simp [updateHistory, h]
  · norm_num [updateHistory, jsRound]
  · norm_num [updateHistory, jsRound]
  · norm_num [updateHistory]

/-- Witness for C3 (amended): folding a 2000 ms / 4-step run into a history
of one 1000 ms / 2-step run gives 2 runs, `avgDurationMs = 1500`,
`avgSteps = 3`. -/
theorem history_update_spec_witness :
    (updateHistory prefsHist1 2000 4).historyRuns = 2 ∧
    (updateHistory prefsHist1 2000 4).avgDurationMs = 1500 ∧
    (updateHistory prefsHist1 2000 4).avgSteps = 3 := by
  have h := history_update_spec prefsHist1 2000 4
  refine ⟨?_, ?_, ?_⟩
  · have hh := h.1 (by norm_num [prefsHist1, prefs0])
    rw [hh]
    norm_num [prefsHist1, prefs0]
  · have hh := (h.2.1 (by norm_num [prefsHist1, prefs0])).1
    rw [hh]
    norm_num [prefsHist1, prefs0, jsRound]
  · have hh := (h.2.1 (by norm_num [prefsHist1, prefs0])).2
    rw [hh]
    norm_num [prefsHist1, prefs0]

theorem asInt_bounds (v : JsVal) (fb lo hi : ℤ) (h1 : lo ≤ fb) (h2 : fb ≤ hi) :
    lo ≤ asInt v fb lo hi ∧ asInt v fb lo hi ≤ hi := by
  cases v <;> simp only [asInt] <;> try exact ⟨h1, h2⟩
  unfold clampI
  split_ifs <;> omega

theorem asInt_not_num (v : JsVal) (fb lo hi : ℤ) (h : ∀ q, v ≠ .num q) :
    asInt v fb lo hi = fb := by
  cases v <;> simp only [asInt]
  exact absurd rfl (h _)

theorem asMode_str_other (s : String) (fb : StatusMode) (h1 : s ≠ "minimal")
    (h2 : s ≠ "normal") (h3 : s ≠ "detailed") : asMode (.str s) fb = fb := by
  unfold asMode
  split <;> simp_all

theorem asProgressMode_str_other (s : String) (fb : ProgressMode)
    (h1 : s ≠ "strict") (h2 : s ≠ "predictive") : asProgressMode (.str s) fb = fb := by
  unfold asProgressMode
  split <;> simp_all

/-- C10: config normalization is total; each numeric field lies in its
documented range, a finite numeric input is truncated and clamped, anything
else falls back to the stated default, and the enum-valued fields take a
non-default value exactly on their documented string inputs. -/
theorem config_normalization_total (raw : Option RawConfig) :
    (250 ≤ (normalizePluginConfig raw).throttleMs ∧
      (normalizePluginConfig raw).throttleMs ≤ 10000) ∧
    (250 ≤ (normalizePluginConfig raw).minThrottleMs ∧
      (normalizePluginConfig raw).minThrottleMs ≤ 10000) ∧
    (250 ≤ (normalizePluginConfig raw).liveTickMs ∧
      (normalizePluginConfig raw).liveTickMs ≤ 10000) ∧
    (0 ≤ (normalizePluginConfig raw).maxRetriesEdit ∧
      (normalizePluginConfig raw).maxRetriesEdit ≤ 4) ∧
    (0 ≤ (normalizePluginConfig raw).maxRetriesSend ∧
      (normalizePluginConfig raw).maxRetriesSend ≤ 10) ∧
    (0 ≤ (normalizePluginConfig raw).autoHideSeconds ∧
      (normalizePluginConfig raw).autoHideSeconds ≤ 600) ∧
    (∀ q, (rawSrc raw).throttleMs = JsVal.num q →
      (normalizePluginConfig raw).throttleMs = clampI (jsTrunc q) 250 10000) ∧
    ((∀ q, (rawSrc raw).throttleMs ≠ JsVal.num q) →
      (normalizePluginConfig raw).throttleMs = 4000) ∧
    (∀ q, (rawSrc raw).minThrottleMs = JsVal.num q →
      (normalizePluginConfig raw).minThrottleMs = clampI (jsTrunc q) 250 10000) ∧
    ((∀ q, (rawSrc raw).minThrottleMs ≠ JsVal.num q) →
      (normalizePluginConfig raw).minThrottleMs = 2500) ∧
    (∀ q, (rawSrc raw).liveTickMs = JsVal.num q →
      (normalizePluginConfig raw).liveTickMs = clampI (jsTrunc q) 250 10000) ∧
    ((∀ q, (rawSrc raw).liveTickMs ≠ JsVal.num q) →
      (normalizePluginConfig raw).liveTickMs = 2500) ∧
    (∀ q, (rawSrc raw).maxRetriesEdit = JsVal.num q →
      (normalizePluginConfig raw).maxRetriesEdit = clampI (jsTrunc q) 0 4) ∧
    ((∀ q, (rawSrc raw).maxRetriesEdit ≠ JsVal.num q) →
      (normalizePluginConfig raw).maxRetriesEdit = 0) ∧
    (∀ q, (rawSrc raw).maxRetriesSend = JsVal.num q →
      (normalizePluginConfig raw).maxRetriesSend = clampI (jsTrunc q) 0 10) ∧
    ((∀ q, (rawSrc raw).maxRetriesSend ≠ JsVal.num q) →
      (normalizePluginConfig raw).maxRetriesSend = 4) ∧
    (∀ q, (rawSrc raw).autoHideSeconds = JsVal.num q →
      (normalizePluginConfig raw).autoHideSeconds = clampI (jsTrunc q) 0 600) ∧
    ((∀ q, (rawSrc raw).autoHideSeconds ≠ JsVal.num q) →
      (normalizePluginConfig raw).autoHideSeconds = 0) ∧
    ((normalizePluginConfig raw).defaultMode = .minimal ↔
      (rawSrc raw).defaultMode = JsVal.str "minimal") ∧
    ((normalizePluginConfig raw).defaultMode = .detailed ↔
      (rawSrc raw).defaultMode = JsVal.str "detailed") ∧
    ((normalizePluginConfig raw).defaultProgressMode = .strict ↔
      (rawSrc raw).defaultProgressMode = JsVal.str "strict") ∧
    (normalizePluginConfig raw).defaultLayout = .tiny1 := by
  refine ⟨asInt_bounds _ _ _ _ (by norm_num) (by norm_num),
    asInt_bounds _ _ _ _ (by norm_num) (by norm_num),
    asInt_bounds _ _ _ _ (by norm_num) (by norm_num),
    asInt_bounds _ _ _ _ (by norm_num) (by norm_num),
    asInt_bounds _ _ _ _ (by norm_num) (by norm_num),
    asInt_bounds _ _ _ _ (by norm_num) (by norm_num),
    ?_, ?_, ?_, ?_, ?_, ?_, ?_, ?_, ?_, ?_, ?_, ?_, ?_, ?_, ?_, ?_⟩
  · intro q h
    show asInt (rawSrc raw).throttleMs 4000 250 10000 = _
    rw [h]
    rfl
  · intro h
    exact asInt_not_num _ _ _ _ h
  · intro q h
    show asInt (rawSrc raw).minThrottleMs 2500 250 10000 = _
    rw [h]
    rfl
  · intro h
    exact asInt_not_num _ _ _ _ h
  · intro q h
    show asInt (rawSrc raw).liveTickMs 2500 250 10000 = _
    rw [h]
    rfl
  · intro h
    exact asInt_not_num _ _ _ _ h
  · intro q h
    show asInt (rawSrc raw).maxRetriesEdit 0 0 4 = _
    rw [h]
    rfl
  · intro h
    exact asInt_not_num _ _ _ _ h
  · intro q h
    show asInt (rawSrc raw).maxRetriesSend 4 0 10 = _
    rw [h]
    rfl
  · intro h
    exact asInt_not_num _ _ _ _ h
  · intro q h
    show asInt (rawSrc raw).autoHideSeconds 0 0 600 = _
    rw [h]
    rfl
  · intro h
    exact asInt_not_num _ _ _ _ h
  · show asMode (rawSrc raw).defaultMode .normal = .minimal ↔ _
    cases hv : (rawSrc raw).defaultMode with
    | str s =>
      by_cases h1 : s = "minimal"
      · subst h1
        simp [asMode]
      · by_cases h2 : s = "normal"
        · subst h2
          simp [asMode]
        · by_cases h3 : s = "detailed"
          · subst h3
            simp [asMode]
          · rw [asMode_str_other s .normal h1 h2 h3]
            simp [h1]
    | num q => simp [asMode]
    | nonFiniteNum => simp [asMode]
    | jsBool b => simp [asMode]
    | nullV => simp [asMode]
    | undef => simp [asMode]
  · show asMode (rawSrc raw).defaultMode .normal = .detailed ↔ _
    cases hv : (rawSrc raw).defaultMode with
    | str s =>
      by_cases h1 : s = "minimal"
      · subst h1
        simp [asMode]
      · by_cases h2 : s = "normal"
        · subst h2
          simp [asMode]
        · by_cases h3 : s = "detailed"
          · subst h3
            simp [asMode]
          · rw [asMode_str_other s .normal h1 h2 h3]
            simp [h3]
    | num q => simp [asMode]
    | nonFiniteNum => simp [asMode]
    | jsBool b => simp [asMode]
    | nullV => simp [asMode]
    | undef => simp [asMode]
  · show asProgressMode (rawSrc raw).defaultProgressMode .predictive = .strict ↔ _
    cases hv : (rawSrc raw).defaultProgressMode with
    | str s =>
      by_cases h1 : s = "strict"
      · subst h1
        simp [asProgressMode]
      · by_cases h2 : s = "predictive"
        · subst h2
          simp [asProgressMode]
        · rw [asProgressMode_str_other s .predictive h1 h2]
          simp [h1]
    | num q => simp [asProgressMode]
    | nonFiniteNum => simp [asProgressMode]
    | jsBool b => simp [asProgressMode]
    | nullV => simp [asProgressMode]
    | undef => simp [asProgressMode]
  · cases h : (normalizePluginConfig raw).defaultLayout
    rfl

/-- Witness for C10: `throttleMs = 10.7` is truncated to 10 and clamped up
to 250, and the missing `maxRetriesSend` falls back to 4. -/
theorem config_normalization_total_witness :
    (normalizePluginConfig (some rawW)).throttleMs = 250 ∧
    (normalizePluginConfig (some rawW)).maxRetriesSend = 4 := by
  have h := config_normalization_total (some rawW)
  constructor
  · have hq := h.2.2.2.2.2.2.1 (107 / 10) rfl
    rw [hq]
    norm_num [clampI, jsTrunc]
  · exact h.2.2.2.2.2.2.2.2.2.2.2.2.2.2.2.1 (fun q => by simp [rawSrc, rawW, rawUndef])

/-- Counterexample to C8 as stated: with the accepted configuration
`throttleMs = minThrottleMs = 250`, the tool phase's effective throttle
(2000 ms) exceeds both the running phase's (250 ms) and the queued
phase's (500 ms), so tool is neither smallest nor below running. -/
theorem throttle_order_cx :
    effectiveThrottleMs cfgLow .tool = 2000 ∧
    effectiveThrottleMs cfgLow .running = 250 ∧
    effectiveThrottleMs cfgLow .queued = 500 ∧
    ¬effectiveThrottleMs cfgLow .tool ≤ effectiveThrottleMs cfgLow .running := by
  refine ⟨?_, ?_, ?_, ?_⟩ <;>
    norm_num [effectiveThrottleMs, resolveThrottleMs, cfgLow, normalizePluginConfig,
      rawSrc, rawLow, rawUndef, asInt, clampI, jsTrunc]

/-- C8 (amended): for every normalized configuration the effective
throttles are `tool ↦ max(minThrottleMs, 2000)`,
`running ↦ max(throttleMs, minThrottleMs)`,
`queued ↦ max(throttleMs·2, minThrottleMs)`; running never exceeds queued,
and whenever `throttleMs ≥ 2000` (in particular under the default 4000)
tool's effective throttle does not exceed running's.  For
`throttleMs < 2000` the stated ordering can fail (see the
counterexample). -/
theorem throttle_order_amended (raw : Option RawConfig) :
    effectiveThrottleMs (normalizePluginConfig raw) .running ≤
      effectiveThrottleMs (normalizePluginConfig raw) .queued ∧
    effectiveThrottleMs (normalizePluginConfig raw) .tool =
      max (normalizePluginConfig raw).minThrottleMs 2000 ∧
    effectiveThrottleMs (normalizePluginConfig raw) .running =
      max (normalizePluginConfig raw).throttleMs
        (normalizePluginConfig raw).minThrottleMs ∧
    effectiveThrottleMs (normalizePluginConfig raw) .queued =
      max ((normalizePluginConfig raw).throttleMs * 2)
        (normalizePluginConfig raw).minThrottleMs ∧
    (2000 ≤ (normalizePluginConfig raw).throttleMs →
      effectiveThrottleMs (normalizePluginConfig raw) .tool ≤
        effectiveThrottleMs (normalizePluginConfig raw) .running) := by
  have hb : (250 : ℤ) ≤ (normalizePluginConfig raw).throttleMs :=
    (asInt_bounds (rawSrc raw).throttleMs 4000 250 10000 (by norm_num) (by norm_num)).1
  refine ⟨?_, ?_, rfl, rfl, ?_⟩
  · simp only [effectiveThrottleMs, resolveThrottleMs]
    exact max_le_max (by omega) le_rfl
  · simp only [effectiveThrottleMs, resolveThrottleMs]
    exact max_eq_left (le_max_left _ _)
  · intro h2000
    simp only [effectiveThrottleMs, resolveThrottleMs]
    exact max_le (max_le (le_max_right _ _)
      (le_trans h2000 (le_max_left _ _))) (le_max_right _ _)

/-- Witness for C8 (amended): under the default configuration
(`throttleMs = 4000 ≥ 2000`) the ordering tool ≤ running ≤ queued holds. -/
theorem throttle_order_amended_witness :
    effectiveThrottleMs cfg0 .tool ≤ effectiveThrottleMs cfg0 .running ∧
    effectiveThrottleMs cfg0 .running ≤ effectiveThrottleMs cfg0 .queued := by
  have h := throttle_order_amended none
  exact ⟨h.2.2.2.2 (by decide), h.1⟩

theorem callGo_all_transient (outcomes : ℕ → TgOutcome) (jitter : ℕ → ℤ) (base : ℤ)
    (h : ∀ i, tgTransient (outcomes i) = true) :
    ∀ (fuel attempt maxRetries : ℕ), attempt ≤ maxRetries → maxRetries < attempt + fuel →
      (callGo outcomes jitter base maxRetries attempt fuel).attempts = maxRetries + 1 ∧
      (callGo outcomes jitter base maxRetries attempt fuel).ok = false := by
  intro fuel
  induction fuel with
  | zero =>
    intro attempt maxRetries h1 h2
    omega
  | succ n ih =>
    intro attempt maxRetries h1 h2
    have ht := h attempt
    cases ho : outcomes attempt with
    | ok =>
      rw [ho] at ht
      simp [tgTransient] at ht
    | err code nm ra =>
      rw [ho] at ht
      simp only [tgTransient, Bool.and_eq_true, Bool.not_eq_true', Bool.or_eq_true] at ht
      obtain ⟨hnm, hclass⟩ := ht
      simp only [callGo, ho]
      rw [if_neg (by simp [hnm])]
      by_cases hm : maxRetries ≤ attempt
      · have hEq : attempt = maxRetries := le_antisymm h1 hm
        rw [if_pos hm]
        exact ⟨by simp [hEq], rfl⟩
      · rw [if_neg hm]
        have hrec := ih (attempt + 1) maxRetries (by omega) (by omega)
        cases hrl : tgIsRateLimit code with
        | true =>
          rw [if_pos (by simp [hrl])]
          exact ⟨hrec.1, hrec.2⟩
        | false =>
          have hsv : tgIsServerOrNetwork code = true := by
            rcases hclass with hc | hc
            · rw [hrl] at hc
              exact absurd hc (by simp)
            · exact hc
          rw [if_neg (by simp [hrl]), if_pos (by simp [hsv])]
          exact ⟨hrec.1, hrec.2⟩

/-- C6: under the default configuration `maxRetriesEdit = 0` and
`maxRetriesSend = 4`; a call run with the edit budget and a transient error
(rate limit / 5xx / network) performs exactly one attempt and fails, while
the same outcomes under the send budget perform exactly 1 + 4 attempts;
for persistent 5xx errors the send retries sleep with exponential backoff
`baseDelay·2^i` plus the per-attempt jitter, floored at 250 ms. -/
theorem retry_asymmetry_spec :
    (normalizePluginConfig none).maxRetriesEdit = 0 ∧
    (normalizePluginConfig none).maxRetriesSend = 4 ∧
    (∀ (outcomes : ℕ → TgOutcome) (jitter : ℕ → ℤ),
      (∀ i, tgTransient (outcomes i) = true) →
      (callTelegramRun outcomes jitter (baseDelayOf (normalizePluginConfig none)) 0).attempts
          = 1 ∧
      (callTelegramRun outcomes jitter (baseDelayOf (normalizePluginConfig none)) 0).ok
          = false ∧
      (callTelegramRun outcomes jitter (baseDelayOf (normalizePluginConfig none)) 4).attempts
          = 5 ∧
      (callTelegramRun outcomes jitter (baseDelayOf (normalizePluginConfig none)) 4).ok
          = false) ∧
    (∀ jitter : ℕ → ℤ,
      (callTelegramRun (fun _ => TgOutcome.err (some 500) false none) jitter
          (baseDelayOf (normalizePluginConfig none)) 4).sleeps =
        [max 250 (2500 + jitter 0), max 250 (5000 + jitter 1),
         max 250 (10000 + jitter 2), max 250 (20000 + jitter 3)]) := by
  refine ⟨rfl, rfl, ?_, ?_⟩
  · intro outcomes jitter h
    have g0 := callGo_all_transient outcomes jitter
      (baseDelayOf (normalizePluginConfig none)) h 1 0 0 (le_refl 0) (by omega)
    have g4 := callGo_all_transient outcomes jitter
      (baseDelayOf (normalizePluginConfig none)) h 5 0 4 (by omega) (by omega)
    exact ⟨g0.1, g0.2, g4.1, g4.2⟩
  · intro jitter
    norm_num [callTelegramRun, callGo, tgIsNotModified, tgIsRateLimit,
      tgIsServerOrNetwork, baseDelayOf, normalizePluginConfig, rawSrc, rawUndef,
      asInt]

/-- Witness for C6: a persistent 429 rate limit makes the edit budget stop
after exactly one attempt and the send budget after exactly five. -/
theorem retry_asymmetry_spec_witness :
    (callTelegramRun (fun _ => TgOutcome.err (some 429) false (some 1)) (fun _ => 0)
        (baseDelayOf (normalizePluginConfig none)) 0).attempts = 1 ∧
    (callTelegramRun (fun _ => TgOutcome.err (some 429) false (some 1)) (fun _ => 0)
        (baseDelayOf (normalizePluginConfig none)) 4).attempts = 5 := by
  have h := retry_asymmetry_spec.2.2.1
    (fun _ => TgOutcome.err (some 429) false (some 1)) (fun _ => 0)
    (fun i => by show tgTransient (TgOutcome.err (some 429) false (some 1)) = true; decide)
  exact ⟨h.1, h.2.2.1⟩

/-- C5 fails on the code: while the circuit breaker still pauses
`(acct, 12345)` (so a flush for the same target is blocked and issues no
call), `handleUnpinCommand` nevertheless issues the unpin delivery call —
it never consults `canProceed`. -/
theorem unpin_bypasses_breaker :
    (rlCanProceed limiterPaused 5000 "acct" "12345").1 = false ∧
    (flushSessionModel envBlocked sessionDirty1).calls = [] ∧
    handleUnpinCommandCalls limiterPaused 5000 target0 (some refA) = [ApiCall.unpin] := by
  decide

/-- Counterexample to C9 as stated: the edit call succeeds and returns a
reference (`refSameId`) different from the stored one (`refOld`,
`updatedAt` differs), yet the flush performs no `setStatusMessage` write —
the persisted ref is not replaced because the message identity is
unchanged. -/
theorem messageRef_not_replaced_cx :
    envEditSame.currentRef = some refOld ∧
    envEditSame.editOutcome = .ok refSameId ∧
    refSameId ≠ refOld ∧
    (flushSessionModel envEditSame sessionDirty1).calls = [ApiCall.edit] ∧
    (flushSessionModel envEditSame sessionDirty1).storeWrites = [] := by
  decide

/-- C9 (amended): during a delivering flush the persisted MessageRef is
replaced exactly when the returned reference differs in `messageId` or
`chatId` (always the case for a send with no usable previous ref); an edit
returning the same identity leaves the store untouched; an edit failing
with "message to edit not found" first clears the ref to null and the
recovery send then stores the new message. -/
theorem messageRef_update_spec (env : FlushEnv) (s : SessionRuntime)
    (hIF : s.isFlushing = false)
    (hEn : env.prefs.enabled = true)
    (hDue : s.renderedRevision < s.desiredRevision)
    (hCan : (rlCanProceed env.limiter env.now s.target.accountId s.target.chatId).1 = true)
    (hNoop : ¬(s.lastRenderedText = some (renderStatusText env.now s env.prefs) ∧
      s.lastRenderedControlsKey = some (controlsKeyOf (renderStatusButtons s env.prefs)) ∧
      s.renderedRevision ≠ 0)) :
    (∀ r nr, env.currentRef = some r → env.editOutcome = .ok nr →
      (r.messageId = nr.messageId ∧ r.chatId = nr.chatId →
        (flushSessionModel env s).storeWrites = []) ∧
      (r.messageId ≠ nr.messageId ∨ r.chatId ≠ nr.chatId →
        (flushSessionModel env s).storeWrites = [some nr])) ∧
    (∀ r nr, env.currentRef = some r → env.editOutcome = .notFound →
      env.sendOutcome = .ok nr →
      (flushSessionModel env s).storeWrites =
        [none] ++ (if r.messageId ≠ nr.messageId || r.chatId ≠ nr.chatId
          then [some nr] else []) ∧
      none ∈ (flushSessionModel env s).storeWrites) ∧
    (∀ nr, env.currentRef = none → env.sendOutcome = .ok nr →
      (flushSessionModel env s).storeWrites = [some nr]) := by
  have key : flushSessionModel env s =
      flushAfterRender env s (renderStatusText env.now s env.prefs)
        (controlsKeyOf (renderStatusButtons s env.prefs)) := by
    simp only [flushSessionModel]
    rw [if_neg (by simp [hIF]), if_neg (by simp [hEn]), if_neg (by omega),
      if_neg (by simp [hCan]), if_neg hNoop]
  refine ⟨?_, ?_, ?_⟩
  · intro r nr hc he
    rw [key]
    simp only [flushAfterRender, hc, he]
    constructor
    · rintro ⟨h1, h2⟩
      have hb : (decide (r.messageId ≠ nr.messageId) ||
          decide (r.chatId ≠ nr.chatId)) = false := by simp [h1, h2]
      simp [flushFinish, hb]
      exact ⟨h1, h2⟩
    · intro hne
      have hb : (decide (r.messageId ≠ nr.messageId) ||
          decide (r.chatId ≠ nr.chatId)) = true := by
        rcases hne with h | h <;> simp [h]
      simp [flushFinish, hb]
      tauto
  · intro r nr hc he hs
    rw [key]
    simp only [flushAfterRender, hc, he, flushSendPath, hs, flushFinish]
    exact ⟨rfl, by simp⟩
  · intro nr hc hs
    rw [key]
    simp [flushAfterRender, hc, flushSendPath, hs, flushFinish]

/-- Witness for C9 (amended): the edit-not-found recovery first clears the
stored ref to null and then stores the freshly sent message. -/
theorem messageRef_update_spec_witness :
    (flushSessionModel envNotFound sessionDirty1).storeWrites = [none, some refNew] ∧
    none ∈ (flushSessionModel envNotFound sessionDirty1).storeWrites := by
  have h := (messageRef_update_spec envNotFound sessionDirty1 (by decide) (by decide)
    (by decide) (by decide) (by decide)).2.1 refOld refNew rfl rfl rfl
  constructor
  · rw [h.1]
    decide
  · exact h.2

theorem markDirtyS_rev (u : Bool) (s : SessionRuntime) :
    (markDirtyS u s).desiredRevision = s.desiredRevision + 1 ∧
    (markDirtyS u s).renderedRevision = s.renderedRevision := by
  unfold markDirtyS scheduleFlushS
  cases u <;> simp only [Bool.false_eq_true, if_true, if_false, reduceIte] <;>
    split <;> exact ⟨rfl, rfl⟩

theorem flushSendPath_rev (env : FlushEnv) (s : SessionRuntime) (t ck : String)
    (cr : Option StatusMessageRef) (ws : List (Option StatusMessageRef))
    (cs : List ApiCall) :
    (flushSendPath env s t ck cr ws cs).session.desiredRevision = s.desiredRevision ∧
    ((flushSendPath env s t ck cr ws cs).session.renderedRevision = s.renderedRevision ∨
      (flushSendPath env s t ck cr ws cs).session.renderedRevision = s.desiredRevision) := by
  cases h : env.sendOutcome <;> simp [flushSendPath, h, flushFinish]

theorem flushAfterRender_rev (env : FlushEnv) (s : SessionRuntime) (t ck : String) :
    (flushAfterRender env s t ck).session.desiredRevision = s.desiredRevision ∧
    ((flushAfterRender env s t ck).session.renderedRevision = s.renderedRevision ∨
      (flushAfterRender env s t ck).session.renderedRevision = s.desiredRevision) := by
  cases hc : env.currentRef with
  | none =>
    simp only [flushAfterRender, hc]
    exact flushSendPath_rev env s t ck none [] []
  | some r =>
    cases he : env.editOutcome with
    | ok nr => simp [flushAfterRender, hc, he, flushFinish]
    | notFound =>
      simp only [flushAfterRender, hc, he]
      exact flushSendPath_rev env s t ck (some r) [none] [ApiCall.edit]
    | rateLimited ra => simp [flushAfterRender, hc, he]
    | failOther => simp [flushAfterRender, hc, he]

theorem flushSessionModel_rev (env : FlushEnv) (s : SessionRuntime) :
    (flushSessionModel env s).session.desiredRevision = s.desiredRevision ∧
    ((flushSessionModel env s).session.renderedRevision = s.renderedRevision ∨
      (flushSessionModel env s).session.renderedRevision = s.desiredRevision) := by
  unfold flushSessionModel
  split
  · exact ⟨rfl, Or.inl rfl⟩
  split
  · exact ⟨rfl, Or.inl rfl⟩
  split
  · exact ⟨rfl, Or.inl rfl⟩
  split
  · exact ⟨rfl, Or.inl rfl⟩
  dsimp only
  split
  · exact ⟨rfl, Or.inr rfl⟩
  exact flushAfterRender_rev env s _ _

theorem stepW_rev (cfg : StatusbarPluginConfig) (now : ℤ) (op : SbOp) (w : SbWorld) :
    ((stepW cfg now op w).session.desiredRevision = w.session.desiredRevision ∨
     (stepW cfg now op w).session.desiredRevision = w.session.desiredRevision + 1) ∧
    ((stepW cfg now op w).session.renderedRevision = w.session.renderedRevision ∨
     (stepW cfg now op w).session.renderedRevision = w.session.desiredRevision ∨
     ((stepW cfg now op w).session.renderedRevision = 0 ∧
       opResets cfg w op = true)) := by
  cases op with
  | markDirtyOp u =>
    exact ⟨Or.inr (markDirtyS_rev u w.session).1, Or.inl (markDirtyS_rev u w.session).2⟩
  | msgReceived =>
    unfold stepW stepMsgReceived
    dsimp only
    split
    next hen => exact ⟨Or.inl rfl, Or.inl rfl⟩
    next hen =>
      split
      next hact =>
        exact ⟨Or.inr (markDirtyS_rev _ _).1, Or.inl (markDirtyS_rev _ _).2⟩
      next hact =>
        split
        next hres =>
          refine ⟨Or.inr (markDirtyS_rev _ _).1,
            Or.inr (Or.inr ⟨(markDirtyS_rev _ _).2.trans rfl, ?_⟩)⟩
          simp only [Bool.not_eq_false] at hen
          simp only [Bool.not_eq_true] at hact
          simp [opResets, hen, hact, hres]
        next hres =>
          exact ⟨Or.inr (markDirtyS_rev _ _).1, Or.inl (markDirtyS_rev _ _).2⟩
  | beforeAgentStart =>
    unfold stepW stepBeforeAgentStart
    dsimp only
    split
    · exact ⟨Or.inl rfl, Or.inl rfl⟩
    · exact ⟨Or.inr (markDirtyS_rev _ _).1, Or.inl (markDirtyS_rev _ _).2⟩
  | beforeToolCall tool =>
    unfold stepW stepBeforeToolCall
    dsimp only
    split
    · exact ⟨Or.inl rfl, Or.inl rfl⟩
    · exact ⟨Or.inr (markDirtyS_rev _ _).1, Or.inl (markDirtyS_rev _ _).2⟩
  | afterToolCall =>
    unfold stepW stepAfterToolCall
    dsimp only
    split
    · exact ⟨Or.inl rfl, Or.inl rfl⟩
    · exact ⟨Or.inr (markDirtyS_rev _ _).1, Or.inl (markDirtyS_rev _ _).2⟩
  | llmOut provider model uin uout =>
    unfold stepW stepLlmOut
    dsimp only
    split
    · exact ⟨Or.inl rfl, Or.inl rfl⟩
    split
    · exact ⟨Or.inr (markDirtyS_rev _ _).1, Or.inl (markDirtyS_rev _ _).2⟩
    split
    · split
      · exact ⟨Or.inr (markDirtyS_rev _ _).1, Or.inl (markDirtyS_rev _ _).2⟩
      · exact ⟨Or.inl rfl, Or.inl rfl⟩
    · exact ⟨Or.inl rfl, Or.inl rfl⟩
  | agentEnd success errMsg durationMs =>
    unfold stepW stepAgentEnd
    dsimp only
    split
    · exact ⟨Or.inl rfl, Or.inl rfl⟩
    cases durationMs with
    | none =>
      dsimp only
      repeat' split
      all_goals
        exact ⟨Or.inr (markDirtyS_rev _ _).1, Or.inl (markDirtyS_rev _ _).2⟩
    | some d =>
      dsimp only
      repeat' split
      all_goals
        exact ⟨Or.inr (markDirtyS_rev _ _).1, Or.inl (markDirtyS_rev _ _).2⟩
  | autoHideFire =>
    unfold stepW stepAutoHideFire
    dsimp only
    split
    · exact ⟨Or.inl rfl, Or.inl rfl⟩
    · exact ⟨Or.inr (markDirtyS_rev _ _).1, Or.inl (markDirtyS_rev _ _).2⟩
  | buttonsCmd =>
    exact ⟨Or.inr (markDirtyS_rev _ _).1, Or.inl (markDirtyS_rev _ _).2⟩
  | flushOp limiter eo so =>
    unfold stepW stepFlush
    dsimp only
    rcases flushSessionModel_rev
        { cfg := cfg, prefs := w.prefs, now := now, limiter := limiter,
          currentRef := w.storedRef, editOutcome := eo, sendOutcome := so }
        { w.session with renderTimer := false } with ⟨h1, h2⟩
    rcases h2 with h2 | h2
    · exact ⟨Or.inl h1, Or.inl h2⟩
    · exact ⟨Or.inl h1, Or.inr (Or.inl h2)⟩

theorem stepW_inv (cfg : StatusbarPluginConfig) (now : ℤ) (op : SbOp) (w : SbWorld)
    (h : w.session.renderedRevision ≤ w.session.desiredRevision) :
    (stepW cfg now op w).session.renderedRevision ≤
      (stepW cfg now op w).session.desiredRevision := by
  rcases stepW_rev cfg now op w with ⟨h1, h2⟩
  rcases h1 with h1 | h1 <;> rcases h2 with h2 | h2 | ⟨h2, _⟩ <;> omega

theorem stepsW_inv (cfg : StatusbarPluginConfig) (ops : List (ℤ × SbOp)) :
    ∀ w : SbWorld, w.session.renderedRevision ≤ w.session.desiredRevision →
      (stepsW cfg w ops).session.renderedRevision ≤
        (stepsW cfg w ops).session.desiredRevision := by
  induction ops with
  | nil => exact fun w h => h
  | cons hd tl ih =>
    intro w h
    exact ih (stepW cfg hd.1 hd.2 w) (stepW_inv cfg hd.1 hd.2 w h)

theorem stepW_reset (cfg : StatusbarPluginConfig) (now : ℤ) (op : SbOp) (w : SbWorld)
    (h : opResets cfg w op = true) :
    (stepW cfg now op w).session.renderedRevision = 0 := by
  cases op with
  | msgReceived =>
    simp only [opResets, Bool.and_eq_true, Bool.not_eq_true'] at h
    obtain ⟨⟨⟨hen, hact⟩, hnm⟩, hpin⟩ := h
    unfold stepW stepMsgReceived
    dsimp only
    rw [if_neg (by simp [hen]), if_neg (by simp [hact]),
      if_pos (show (cfg.newMessagePerRun && !w.prefs.pinMode) = true by simp [hnm, hpin])]
    exact (markDirtyS_rev false _).2.trans rfl
  | markDirtyOp u => simp [opResets] at h
  | beforeAgentStart => simp [opResets] at h
  | beforeToolCall tool => simp [opResets] at h
  | afterToolCall => simp [opResets] at h
  | llmOut provider model uin uout => simp [opResets] at h
  | agentEnd success errMsg durationMs => simp [opResets] at h
  | autoHideFire => simp [opResets] at h
  | buttonsCmd => simp [opResets] at h
  | flushOp limiter eo so => simp [opResets] at h

/-- C1 (amended): along every operation sequence
`renderedRevision ≤ desiredRevision` is preserved; every single step leaves
`renderedRevision` non-decreasing except the `onMessageReceived` new-run
reset (`newMessagePerRun` on, not pinned, no active run), which sets it
back to 0; and a flush with `desiredRevision ≤ renderedRevision` (not due)
changes nothing and issues no call. -/
theorem revisions_spec (cfg : StatusbarPluginConfig) (w : SbWorld)
    (hinv : w.session.renderedRevision ≤ w.session.desiredRevision) :
    (∀ ops : List (ℤ × SbOp),
      (stepsW cfg w ops).session.renderedRevision ≤
        (stepsW cfg w ops).session.desiredRevision) ∧
    (∀ (now : ℤ) (op : SbOp), opResets cfg w op = false →
      w.session.renderedRevision ≤ (stepW cfg now op w).session.renderedRevision) ∧
    (∀ (now : ℤ) (op : SbOp), opResets cfg w op = true →
      (stepW cfg now op w).session.renderedRevision = 0) ∧
    (∀ env : FlushEnv, w.session.desiredRevision ≤ w.session.renderedRevision →
      flushSessionModel env w.session =
        { session := w.session, storeWrites := [], calls := [],
          limiter := env.limiter }) := by
  refine ⟨fun ops => stepsW_inv cfg ops w hinv, ?_, ?_, ?_⟩
  · intro now op hres
    rcases stepW_rev cfg now op w with ⟨h1, h2⟩
    rcases h2 with h2 | h2 | ⟨h2, hr⟩
    · omega
    · omega
    · rw [hres] at hr
      cases hr
  · exact fun now op h => stepW_reset cfg now op w h
  · intro env hle
    unfold flushSessionModel
    by_cases h1 : w.session.isFlushing = true
    · rw [if_pos h1]
    · rw [if_neg h1]
      by_cases h2 : env.prefs.enabled = false
      · rw [if_pos h2]
      · rw [if_neg h2, if_pos hle]

/-- Witness for C1 (amended): from the fresh world, a dirty mark keeps the
invariant and does not decrease `renderedRevision`. -/
theorem revisions_spec_witness :
    (stepsW cfg0 world0 [(0, .markDirtyOp false)]).session.renderedRevision ≤
      (stepsW cfg0 world0 [(0, .markDirtyOp false)]).session.desiredRevision ∧
    world0.session.renderedRevision ≤
      (stepW cfg0 0 (.markDirtyOp false) world0).session.renderedRevision := by
  have h := revisions_spec cfg0 world0 (by decide)
  exact ⟨h.1 [(0, .markDirtyOp false)],
    h.2.1 0 (.markDirtyOp false) (by decide)⟩

/-- Counterexample to C1 as stated: after a dirty mark and a successful
flush (send delivering `refA`), `renderedRevision = 1`; a following
`message_received` under the default config (`newMessagePerRun`, not
pinned, no active run) resets it to 0 — `renderedRevision` is not
non-decreasing. -/
theorem renderedRevision_decrease_cx :
    (stepsW cfg0 world0
      [(0, .markDirtyOp false),
       (0, .flushOp [] .failOther (.ok refA))]).session.renderedRevision = 1 ∧
    (stepsW cfg0 world0
      [(0, .markDirtyOp false), (0, .flushOp [] .failOther (.ok refA)),
       (1, .msgReceived)]).session.renderedRevision = 0 := by
  exact ⟨by decide, by decide⟩
